import Mathlib

/-!
Shallow embedding of `src/V01.py` (a single-file PyQt5 PDF viewer) for
verification of its specification.

The viewer state mirrors the instance fields set in `PDFViewer.__init__`
(lines 25-30): `doc`, `total_pages`, `current_page`, `scale`, `bg_mode`.
Real-valued quantities (`scale`, viewport and page geometry) are modelled
as rationals; Python integers are `Int`/`Nat`; the `uint8` pixel channels
are `Nat` under a well-formedness bound `< 256`.
-/

namespace V01

/-- Background / colour mode, the `bg_mode` field of `PDFViewer`
(one of the string keys `"default"`, `"night"`, `"eye"`). -/
inductive Mode
  | default
  | night
  | eye
  deriving DecidableEq, Repr

/-- A single RGB pixel of the rendered bitmap (`QImage.Format_RGB888`).
Channel values are `numpy.uint8` in the source, so well-formed channels
are `< 256`. -/
structure Pixel where
  red : Nat
  green : Nat
  blue : Nat
  deriving DecidableEq, Repr

/-- Well-formedness of a pixel: all channels fit in `uint8`. -/
def Pixel.wf (p : Pixel) : Prop :=
  p.red < 256 ∧ p.green < 256 ∧ p.blue < 256

instance (p : Pixel) : Decidable p.wf := by
  unfold Pixel.wf
  infer_instance

/-- A bitmap is the flat list of its RGB pixels (row order is irrelevant to
the per-pixel transforms of lines 134-141). -/
abbrev Bitmap := List Pixel

/-- The per-pixel colour transform of `show_page`, lines 134-141 of
`src/V01.py`:

* `night` (line 135): `arr = 255 - arr` on `uint8` data, i.e. each channel
  `c` becomes `255 - c` (no wrap-around since `c ≤ 255`).
* `eye` (lines 138-141): the array is widened to `float32`; the green
  channel becomes `clip(g + 30, 0, 255)` and the blue channel
  `clip(b * 0.85, 0, 255)`; the result is narrowed back with
  `astype(np.uint8)`, which truncates toward zero.  For `b ≤ 255` the
  `float32` computation of `b * 0.85` (with `0.85` rounded to the nearest
  `float32`, `0.85000002384185791015625`) lies strictly between
  `17 * b / 20` and the next integer, so the truncation equals the exact
  integer floor `17 * b / 20`; green stays an exact integer throughout.
* `default`: no transform is applied.
-/
def transformPixel (m : Mode) (p : Pixel) : Pixel :=
  match m with
  | Mode.default => p
  | Mode.night => ⟨255 - p.red, 255 - p.green, 255 - p.blue⟩
  | Mode.eye => ⟨p.red, min (p.green + 30) 255, min (17 * p.blue / 20) 255⟩

/-- Whole-bitmap colour transform (the mode dispatch of lines 134-141). -/
def transform (b : Bitmap) (m : Mode) : Bitmap :=
  List.map (transformPixel m) b

/-- The blue-channel formula exactly as the specification words it:
`clamp(round(in.blue * 0.85), 0, 255)` (rounding to nearest, as `round`
means in the spec).  To be compared against the code's truncating
behaviour in `transformPixel`. -/
def specRoundBlue (b : Nat) : Int :=
  max 0 (min 255 (round ((b : ℚ) * (85 / 100))))

/-- A document handle as obtained from `fitz.open` (line 113): an opaque
handle identity plus its `page_count` attribute. -/
structure Document where
  hid : Nat
  page_count : Nat
  deriving DecidableEq, Repr

/-- The mutable viewer state of `PDFViewer` (fields set in `__init__`,
lines 25-30; `pdf_path` is omitted as no claim mentions it). -/
structure ViewerState where
  doc : Option Document
  total_pages : Nat
  current_page : Int
  scale : ℚ
  bg_mode : Mode
  deriving DecidableEq, Repr

/-- The state after `__init__` (lines 25-30): no document, zero pages,
page 0, scale 1.0, default mode. -/
def initialState : ViewerState :=
  { doc := none, total_pages := 0, current_page := 0, scale := 1,
    bg_mode := Mode.default }

/-- What a call to `show_page` emits to the display (lines 123-145):
either the label is cleared (no document, or `current_page` out of range,
lines 124-126) or the current page is rasterized at the current scale and
shown under the current mode. -/
inductive RenderOut
  | cleared
  | rendered (page : Int) (scale : ℚ) (mode : Mode)
  deriving DecidableEq, Repr

/-- Dialog messages shown via `QMessageBox.warning`: line 189
(`"页码超出范围"`, the page-range error), line 191 (`"请输入有效页码"`,
invalid page input), line 121 (`"无法打开PDF"`, open failure). -/
inductive UserMsg
  | pageRangeError
  | invalidInput
  | openFailed
  deriving DecidableEq, Repr

/-- `show_page` (lines 123-148) as a function of the state: returns what
is emitted to the page widget.  Line 124 guards on `doc is None` and on
`0 <= current_page < total_pages`. -/
def show_page (s : ViewerState) : RenderOut :=
  match s.doc with
  | none => RenderOut.cleared
  | some _ =>
    if 0 ≤ s.current_page ∧ s.current_page < (s.total_pages : Int) then
      RenderOut.rendered s.current_page s.scale s.bg_mode
    else
      RenderOut.cleared

/-- `open_pdf` (lines 109-121) after a file was chosen.  The outcome of
`fitz.open(pdf_path)` is passed as `res`: `some d` models a successful
open (lines 113-119: the new handle is stored, `total_pages` is set from
`doc.page_count`, `current_page` resets to 0, `scale` to 1.0, and
`show_page` runs), `none` models the exception path (lines 120-121: a
warning dialog, state untouched).  The result is the new state, what
`show_page` emitted (if it ran), and the dialog message (if any). -/
def open_pdf (s : ViewerState) (res : Option Document) :
    ViewerState × Option RenderOut × Option UserMsg :=
  match res with
  | some d =>
    let s' : ViewerState :=
      { s with doc := some d, total_pages := d.page_count,
               current_page := 0, scale := 1 }
    (s', some (show_page s'), none)
  | none => (s, none, some UserMsg.openFailed)

/-- `goto_page` (lines 182-191).  The page-entry text is pre-parsed:
`some k` models `int(text.strip()) = k` (so the zero-based target is
`n = k - 1`, line 184); `none` models the exception path of a non-numeric
entry (lines 190-191).  Line 185 tests `self.doc and 0 <= n <
self.total_pages`; any failure of that test shows the same
page-range-error dialog (lines 188-189) and leaves the state unchanged. -/
def goto_page (s : ViewerState) (parsed : Option Int) :
    ViewerState × Option RenderOut × Option UserMsg :=
  match parsed with
  | none => (s, none, some UserMsg.invalidInput)
  | some k =>
    let n : Int := k - 1
    if s.doc.isSome ∧ 0 ≤ n ∧ n < (s.total_pages : Int) then
      let s' : ViewerState := { s with current_page := n }
      (s', some (show_page s'), none)
    else
      (s, none, some UserMsg.pageRangeError)

/-- `zoom_in` (lines 150-152): `scale *= 1.2` unconditionally, then
`show_page`.  `1.2` is `6/5` (the decimal literal of the source). -/
def zoom_in (s : ViewerState) : ViewerState × Option RenderOut :=
  let s' : ViewerState := { s with scale := s.scale * (6 / 5) }
  (s', some (show_page s'))

/-- `zoom_out` (lines 154-156): `scale /= 1.2` unconditionally, then
`show_page`. -/
def zoom_out (s : ViewerState) : ViewerState × Option RenderOut :=
  let s' : ViewerState := { s with scale := s.scale / (6 / 5) }
  (s', some (show_page s'))

/-- `fit_to_window` (lines 158-168).  Returns immediately when no document
is loaded (lines 159-160).  Otherwise the viewport dimensions
(`vw`, `vh`, lines 162-163) and the current page's untransformed rect
(`pw`, `ph`, line 164, `page.rect`) give
`scale = min(vw / pw, vh / ph)` (lines 165-167), then `show_page`. -/
def fit_to_window (s : ViewerState) (vw vh pw ph : ℚ) :
    ViewerState × Option RenderOut :=
  match s.doc with
  | none => (s, none)
  | some _ =>
    let s' : ViewerState := { s with scale := min (vw / pw) (vh / ph) }
    (s', some (show_page s'))

/-- `set_night_mode` / `set_eye_mode` / `set_default_mode`
(lines 170-180): set `bg_mode` and re-render. -/
def set_mode (s : ViewerState) (m : Mode) : ViewerState × Option RenderOut :=
  let s' : ViewerState := { s with bg_mode := m }
  (s', some (show_page s'))

/-- `prev_page` (lines 209-212): step back only when `current_page > 0`;
otherwise nothing happens (no dialog, no render). -/
def prev_page (s : ViewerState) : ViewerState × Option RenderOut :=
  if 0 < s.current_page then
    let s' : ViewerState := { s with current_page := s.current_page - 1 }
    (s', some (show_page s'))
  else
    (s, none)

/-- `next_page` (lines 214-217): step forward only when a document is
loaded and `current_page < total_pages - 1`; otherwise nothing happens
(no dialog, no render). -/
def next_page (s : ViewerState) : ViewerState × Option RenderOut :=
  if s.doc.isSome ∧ s.current_page < (s.total_pages : Int) - 1 then
    let s' : ViewerState := { s with current_page := s.current_page + 1 }
    (s', some (show_page s'))
  else
    (s, none)

/-- The viewer operations, as triggered by the toolbar / wheel events. -/
inductive Op
  | openOp (res : Option Document)
  | gotoOp (parsed : Option Int)
  | nextOp
  | prevOp
  | zoomInOp
  | zoomOutOp
  | fitOp (vw vh pw ph : ℚ)
  | modeOp (m : Mode)
  deriving DecidableEq

/-- One step of the viewer: the state component of the operation's
effect. -/
def step (s : ViewerState) : Op → ViewerState
  | Op.openOp res => (open_pdf s res).1
  | Op.gotoOp parsed => (goto_page s parsed).1
  | Op.nextOp => (next_page s).1
  | Op.prevOp => (prev_page s).1
  | Op.zoomInOp => (zoom_in s).1
  | Op.zoomOutOp => (zoom_out s).1
  | Op.fitOp vw vh pw ph => (fit_to_window s vw vh pw ph).1
  | Op.modeOp m => (set_mode s m).1

/-- The page-range invariant the specification asserts for loaded
documents: `0 ≤ current_page < total_pages`. -/
def invariant (s : ViewerState) : Prop :=
  s.doc.isSome → 0 ≤ s.current_page ∧ s.current_page < (s.total_pages : Int)

instance (s : ViewerState) : Decidable (invariant s) := by
  unfold invariant
  infer_instance

/-- Document-handle lifecycle events.  `acquire h` is `fitz.open`
returning handle `h`; `release h` is the moment the program stops holding
handle `h` (for `V01.py`, the overwrite `self.doc = doc` on line 115
dropping the last reference to the prior document — the source contains no
explicit `close`). -/
inductive HandleEvent
  | acquire (h : Nat)
  | release (h : Nat)
  deriving DecidableEq, Repr

/-- The handle events of a successful `open_pdf` (lines 113-115), in
program order: `fitz.open(pdf_path)` acquires the new handle first
(line 113); only afterwards does `self.doc = doc` (line 115) drop the
reference to the previously held document, releasing it. -/
def open_pdf_handle_events (s : ViewerState) (d : Document) :
    List HandleEvent :=
  HandleEvent.acquire d.hid ::
    (match s.doc with
     | some old => [HandleEvent.release old.hid]
     | none => [])

/-- Effect of one handle event on the set (list) of held handles. -/
def applyEvent (held : List Nat) : HandleEvent → List Nat
  | HandleEvent.acquire h => held ++ [h]
  | HandleEvent.release h => List.filter (fun x => decide (x ≠ h)) held

/-- Handles held after processing a list of events. -/
def heldAfter (held : List Nat) : List HandleEvent → List Nat
  | [] => held
  | e :: es => heldAfter (applyEvent held e) es

/-- The largest number of simultaneously held handles over the whole
event sequence (including the starting point). -/
def maxHeld (held : List Nat) : List HandleEvent → Nat
  | [] => held.length
  | e :: es => max held.length (maxHeld (applyEvent held e) es)

/-- A concrete loaded state: a three-page document (handle 0) open at
page 0 — the state right after opening such a document. -/
def sampleLoaded : ViewerState :=
  { doc := some ⟨0, 3⟩, total_pages := 3, current_page := 0, scale := 1,
    bg_mode := Mode.default }

/-- A concrete state with no document loaded, but a non-default scale and
mode (as reachable by zooming and switching modes before any open). -/
def sampleEmpty : ViewerState :=
  { doc := none, total_pages := 0, current_page := 0, scale := 2,
    bg_mode := Mode.night }

end V01

namespace V01

/-- The truncating `uint8` narrowing of the blue channel computes the
integer floor of `b * 0.85`, clamped to `[0, 255]`. -/
theorem eyeBlue_eq_floor (b : Nat) :
    ((min (17 * b / 20) 255 : Nat) : Int) =
      max 0 (min 255 ⌊(b : ℚ) * (85 / 100)⌋) := by
  have hq : (b : ℚ) * (85 / 100) = ((17 * b : ℕ) : ℚ) / ((20 : ℕ) : ℚ) := by
    push_cast
    ring
  rw [hq, Rat.floor_natCast_div_natCast]
  push_cast [Nat.cast_min]
  omega

end V01

namespace V01

/-- C1, counterexample: the claim states the blue channel becomes
`clamp(round(in.blue * 0.85), 0, 255)`.  At a pixel with `blue = 1` the
code truncates `0.85` to `0`, while rounding to nearest gives `1`. -/
theorem C1_counterexample :
    ((transformPixel Mode.eye ⟨0, 0, 1⟩).blue : Int) ≠ specRoundBlue 1 := by
  have h1 : ((transformPixel Mode.eye ⟨0, 0, 1⟩).blue : Int) = 0 := by rfl
  have h2 : specRoundBlue 1 = 1 := by
    unfold specRoundBlue
    norm_num [round_eq]
  rw [h1, h2]
  decide

/-- C1 (amended): for every well-formed pixel, the EyeComfort transform
leaves red unchanged, sets green to `clamp(green + 30, 0, 255)` and blue
to `clamp(floor(blue * 0.85), 0, 255)` (truncation, not rounding to
nearest), the intermediate arithmetic being exact (performed on `ℚ` /
wide integers, no wrap-around before clamping), and the result is again
a well-formed 8-bit pixel. -/
theorem C1_eye_comfort (p : Pixel) (h : p.wf) :
    (transformPixel Mode.eye p).red = p.red ∧
    ((transformPixel Mode.eye p).green : Int) =
      max 0 (min 255 ((p.green : Int) + 30)) ∧
    ((transformPixel Mode.eye p).blue : Int) =
      max 0 (min 255 ⌊(p.blue : ℚ) * (85 / 100)⌋) ∧
    (transformPixel Mode.eye p).wf := by
  obtain ⟨hr, hg, hb⟩ := h
  refine ⟨rfl, ?_, eyeBlue_eq_floor p.blue, ?_⟩
  · show ((min (p.green + 30) 255 : Nat) : Int) = _
    push_cast [Nat.cast_min]
    omega
  · refine ⟨hr, ?_, ?_⟩
    · show min (p.green + 30) 255 < 256
      omega
    · show min (17 * p.blue / 20) 255 < 256
      omega

/-- C1 witness: the amended theorem applied to the concrete pixel
`(200, 250, 1)`. -/
theorem C1_eye_comfort_witness :
    Pixel.wf ⟨200, 250, 1⟩ ∧
    ((transformPixel Mode.eye ⟨200, 250, 1⟩).red = 200 ∧
     ((transformPixel Mode.eye ⟨200, 250, 1⟩).green : Int) =
       max 0 (min 255 ((250 : Int) + 30)) ∧
     ((transformPixel Mode.eye ⟨200, 250, 1⟩).blue : Int) =
       max 0 (min 255 ⌊((1 : Nat) : ℚ) * (85 / 100)⌋) ∧
     (transformPixel Mode.eye ⟨200, 250, 1⟩).wf) :=
  ⟨by decide, C1_eye_comfort ⟨200, 250, 1⟩ (by decide)⟩

/-- C6: for every well-formed bitmap, the Night transform complements
every channel of every pixel, and applying it twice gives back the
original bitmap. -/
theorem C6_night_involutive (B : Bitmap) (h : ∀ p ∈ B, p.wf) :
    (∀ p ∈ B, transformPixel Mode.night p =
      ⟨255 - p.red, 255 - p.green, 255 - p.blue⟩) ∧
    transform (transform B Mode.night) Mode.night = B := by
  refine ⟨fun p _ => rfl, ?_⟩
  unfold transform
  rw [List.map_map]
  induction B with
  | nil => rfl
  | cons p ps ih =>
    have hp : transformPixel Mode.night (transformPixel Mode.night p) = p := by
      obtain ⟨r, g, b⟩ := p
      have hw : r < 256 ∧ g < 256 ∧ b < 256 := h ⟨r, g, b⟩ (by simp)
      show Pixel.mk (255 - (255 - r)) (255 - (255 - g)) (255 - (255 - b)) =
        Pixel.mk r g b
      congr 1 <;> omega
    simpa [hp] using ih (fun q hq => h q (by simp [hq]))

/-- C6 witness: the theorem applied to a concrete two-pixel bitmap. -/
theorem C6_night_involutive_witness :
    (∀ p ∈ ([⟨0, 128, 255⟩, ⟨17, 3, 99⟩] : Bitmap), p.wf) ∧
    ((∀ p ∈ ([⟨0, 128, 255⟩, ⟨17, 3, 99⟩] : Bitmap),
        transformPixel Mode.night p =
          ⟨255 - p.red, 255 - p.green, 255 - p.blue⟩) ∧
     transform (transform [⟨0, 128, 255⟩, ⟨17, 3, 99⟩] Mode.night)
         Mode.night = [⟨0, 128, 255⟩, ⟨17, 3, 99⟩]) :=
  ⟨by decide, C6_night_involutive [⟨0, 128, 255⟩, ⟨17, 3, 99⟩] (by decide)⟩

/-- C8: `zoom_in` multiplies the scale by exactly `1.2` and `zoom_out`
divides it by exactly `1.2`, unconditionally (no document guard, no
lower or upper bound on the result), touching no other state field; the
two operations round-trip the scale exactly in either order. -/
theorem C8_zoom_roundtrip (s : ViewerState) :
    (zoom_in s).1 = { s with scale := s.scale * (6 / 5) } ∧
    (zoom_out s).1 = { s with scale := s.scale / (6 / 5) } ∧
    (zoom_out (zoom_in s).1).1.scale = s.scale ∧
    (zoom_in (zoom_out s).1).1.scale = s.scale := by
  refine ⟨rfl, rfl, ?_, ?_⟩
  · show s.scale * (6 / 5) / (6 / 5) = s.scale
    rw [mul_div_cancel_right₀]
    norm_num
  · show s.scale / (6 / 5) * (6 / 5) = s.scale
    rw [div_mul_cancel₀]
    norm_num

end V01

namespace V01

/-- C5: for every loaded document, `fit_to_window` sets the scale to
exactly `min(viewport_width / page_width, viewport_height / page_height)`
computed from the untransformed page geometry; in particular a viewport
of `(800, 600)` on a page of geometry `(400, 500)` yields scale `1.2`. -/
theorem C5_fit_to_window (s : ViewerState) (hdoc : s.doc.isSome)
    (vw vh pw ph : ℚ) :
    (fit_to_window s vw vh pw ph).1.scale = min (vw / pw) (vh / ph) ∧
    (fit_to_window s 800 600 400 500).1.scale = 6 / 5 := by
  obtain ⟨d, hd⟩ := Option.isSome_iff_exists.mp hdoc
  constructor
  · simp [fit_to_window, hd]
  · simp [fit_to_window, hd]
    norm_num [min_def]

/-- C5 witness: the theorem applied to the concrete loaded state and the
scenario's viewport and page geometry. -/
theorem C5_fit_to_window_witness :
    sampleLoaded.doc.isSome ∧
    ((fit_to_window sampleLoaded 800 600 400 500).1.scale =
       min (800 / 400 : ℚ) (600 / 500) ∧
     (fit_to_window sampleLoaded 800 600 400 500).1.scale = 6 / 5) :=
  ⟨by decide, C5_fit_to_window sampleLoaded (by decide) 800 600 400 500⟩

/-- C9: with no document loaded, `goto_page` on any parsed numeric entry
(`some k`, including the plausible entry `1`) shows exactly the same
page-range-error dialog as a genuine out-of-range index and leaves the
whole state unchanged — it never navigates and never distinguishes the
no-document case from the out-of-range case. -/
theorem C9_goto_no_doc (s : ViewerState) (hdoc : s.doc = none) (k : Int) :
    goto_page s (some k) = (s, none, some UserMsg.pageRangeError) := by
  have hc : ¬ (s.doc.isSome ∧ 0 ≤ k - 1 ∧ k - 1 < (s.total_pages : Int)) := by
    simp [hdoc]
  simp only [goto_page]
  rw [if_neg hc]

/-- C9 witness: the theorem applied to the concrete empty state and the
plausible entry `1`. -/
theorem C9_goto_no_doc_witness :
    sampleEmpty.doc = none ∧
    goto_page sampleEmpty (some 1) =
      (sampleEmpty, none, some UserMsg.pageRangeError) :=
  ⟨by decide, C9_goto_no_doc sampleEmpty (by decide) 1⟩

/-- C10: with no document loaded, `zoom_in` / `zoom_out` still multiply /
divide the scale by `1.2` (the update is not guarded by document
presence), the triggered render only clears the display surface, and a
subsequent successful open resets the scale to `1.0`. -/
theorem C10_zoom_no_doc (s : ViewerState) (hdoc : s.doc = none)
    (d : Document) :
    (zoom_in s).1.scale = s.scale * (6 / 5) ∧
    (zoom_in s).2 = some RenderOut.cleared ∧
    (zoom_out s).1.scale = s.scale / (6 / 5) ∧
    (zoom_out s).2 = some RenderOut.cleared ∧
    (open_pdf (zoom_in s).1 (some d)).1.scale = 1 := by
  refine ⟨rfl, ?_, rfl, ?_, rfl⟩ <;> simp [zoom_in, zoom_out, show_page, hdoc]

/-- C10 witness: the theorem applied to the concrete empty state (scale
2) and a one-page document. -/
theorem C10_zoom_no_doc_witness :
    sampleEmpty.doc = none ∧
    ((zoom_in sampleEmpty).1.scale = sampleEmpty.scale * (6 / 5) ∧
     (zoom_in sampleEmpty).2 = some RenderOut.cleared ∧
     (zoom_out sampleEmpty).1.scale = sampleEmpty.scale / (6 / 5) ∧
     (zoom_out sampleEmpty).2 = some RenderOut.cleared ∧
     (open_pdf (zoom_in sampleEmpty).1 (some ⟨1, 1⟩)).1.scale = 1) :=
  ⟨by decide, C10_zoom_no_doc sampleEmpty (by decide) ⟨1, 1⟩⟩

end V01

namespace V01

/-- C2, counterexample: the claim states the prior handle is released
before (or at) acquisition of the new one, so at most one handle is ever
held.  Opening a new document (handle 1) from the loaded state (handle 0)
acquires first (line 113) and releases only at the overwrite (line 115),
so two handles are held in between. -/
theorem C2_counterexample :
    ¬ maxHeld [0] (open_pdf_handle_events sampleLoaded ⟨1, 5⟩) ≤ 1 := by
  decide

/-- C2 (amended): opening a new document while one is already open
acquires the new handle first, and only afterwards releases the prior
handle (implicitly, by overwriting the `self.doc` reference — the source
never calls `close`).  During the replacement both handles are held
(maximum two concurrently), but once `open_pdf` completes only the new
handle remains held, so no handle outlives the operation. -/
theorem C2_handle_lifecycle (s : ViewerState) (old d : Document)
    (hdoc : s.doc = some old) (hne : old.hid ≠ d.hid) :
    open_pdf_handle_events s d =
      [HandleEvent.acquire d.hid, HandleEvent.release old.hid] ∧
    heldAfter [old.hid] (open_pdf_handle_events s d) = [d.hid] ∧
    maxHeld [old.hid] (open_pdf_handle_events s d) = 2 := by
  have he : open_pdf_handle_events s d =
      [HandleEvent.acquire d.hid, HandleEvent.release old.hid] := by
    simp [open_pdf_handle_events, hdoc]
  refine ⟨he, ?_, ?_⟩ <;> rw [he]
  · simp [heldAfter, applyEvent, List.filter_cons, hne.symm]
  · simp [maxHeld, applyEvent, List.filter_cons, hne.symm]

/-- C2 witness: the amended theorem applied to the loaded state holding
handle 0 and a new five-page document with handle 1. -/
theorem C2_handle_lifecycle_witness :
    (sampleLoaded.doc = some ⟨0, 3⟩ ∧ (0 : Nat) ≠ 1) ∧
    (open_pdf_handle_events sampleLoaded ⟨1, 5⟩ =
       [HandleEvent.acquire 1, HandleEvent.release 0] ∧
     heldAfter [0] (open_pdf_handle_events sampleLoaded ⟨1, 5⟩) = [1] ∧
     maxHeld [0] (open_pdf_handle_events sampleLoaded ⟨1, 5⟩) = 2) :=
  ⟨⟨by decide, by decide⟩,
   C2_handle_lifecycle sampleLoaded ⟨0, 3⟩ ⟨1, 5⟩ (by decide) (by decide)⟩

/-- C3, counterexample: the claim asserts `0 ≤ current_page < page_count`
in every reachable loaded state, including after opening a zero-page
document.  Opening a zero-page document from the initial state yields
`current_page = 0 = page_count`, violating the invariant. -/
theorem C3_counterexample :
    ¬ invariant (step initialState (Op.openOp (some ⟨7, 0⟩))) := by
  decide

/-- C3 (amended): the invariant `0 ≤ current_page < page_count` (for
loaded states) is preserved by every operation — open, goto, next, prev,
zoom in/out, fit-to-window, mode change — provided any document being
opened has at least one page.  (A zero-page document breaks it, see the
counterexample; `show_page` then merely clears the display.) -/
theorem C3_invariant_preserved (s : ViewerState) (op : Op)
    (hinv : invariant s)
    (hpc : ∀ d : Document, op = Op.openOp (some d) → 1 ≤ d.page_count) :
    invariant (step s op) := by
  cases op with
  | openOp res =>
    cases res with
    | none => exact hinv
    | some d =>
      have hd := hpc d rfl
      intro _
      show (0 : Int) ≤ (0 : Int) ∧ (0 : Int) < (d.page_count : Int)
      omega
  | gotoOp parsed =>
    cases parsed with
    | none => exact hinv
    | some k =>
      by_cases hc : s.doc.isSome ∧ 0 ≤ k - 1 ∧ k - 1 < (s.total_pages : Int)
      · have hst : step s (Op.gotoOp (some k)) =
            { s with current_page := k - 1 } := by
          simp only [step, goto_page]
          rw [if_pos hc]
        rw [hst]
        intro _
        exact ⟨hc.2.1, hc.2.2⟩
      · have hst : step s (Op.gotoOp (some k)) = s := by
          simp only [step, goto_page]
          rw [if_neg hc]
        rw [hst]
        exact hinv
  | nextOp =>
    by_cases hc : s.doc.isSome ∧ s.current_page < (s.total_pages : Int) - 1
    · have hst : step s Op.nextOp =
          { s with current_page := s.current_page + 1 } := by
        simp only [step, next_page]
        rw [if_pos hc]
      rw [hst]
      intro hds
      obtain ⟨h1, h2⟩ := hinv hds
      show (0 : Int) ≤ s.current_page + 1 ∧
        s.current_page + 1 < (s.total_pages : Int)
      omega
    · have hst : step s Op.nextOp = s := by
        simp only [step, next_page]
        rw [if_neg hc]
      rw [hst]
      exact hinv
  | prevOp =>
    by_cases hc : 0 < s.current_page
    · have hst : step s Op.prevOp =
          { s with current_page := s.current_page - 1 } := by
        simp only [step, prev_page]
        rw [if_pos hc]
      rw [hst]
      intro hds
      obtain ⟨h1, h2⟩ := hinv hds
      show (0 : Int) ≤ s.current_page - 1 ∧
        s.current_page - 1 < (s.total_pages : Int)
      omega
    · have hst : step s Op.prevOp = s := by
        simp only [step, prev_page]
        rw [if_neg hc]
      rw [hst]
      exact hinv
  | zoomInOp =>
    intro hds
    exact hinv hds
  | zoomOutOp =>
    intro hds
    exact hinv hds
  | fitOp vw vh pw ph =>
    cases hd : s.doc with
    | none =>
      have hst : step s (Op.fitOp vw vh pw ph) = s := by
        simp only [step, fit_to_window, hd]
      rw [hst]
      exact hinv
    | some d =>
      have hst : step s (Op.fitOp vw vh pw ph) =
          { s with scale := min (vw / pw) (vh / ph) } := by
        simp only [step, fit_to_window, hd]
      rw [hst]
      intro hds
      exact hinv hds
  | modeOp m =>
    intro hds
    exact hinv hds

/-- C3 witness: the amended theorem applied to the initial state and the
open of a four-page document. -/
theorem C3_invariant_preserved_witness :
    (invariant initialState ∧
     (∀ d : Document,
        Op.openOp (some ⟨1, 4⟩) = Op.openOp (some d) → 1 ≤ d.page_count)) ∧
    invariant (step initialState (Op.openOp (some ⟨1, 4⟩))) :=
  ⟨⟨by decide, by
      intro d hd
      injection hd with h1
      injection h1 with h2
      rw [← h2]
      decide⟩,
   C3_invariant_preserved initialState (Op.openOp (some ⟨1, 4⟩)) (by decide)
     (by
       intro d hd
       injection hd with h1
       injection h1 with h2
       rw [← h2]
       decide)⟩

end V01

namespace V01

/-- C4: with a document loaded, `goto_page` on a requested zero-based
index `n` (entered as the one-based text `n + 1`) reports the page-range
error and leaves the whole state unchanged when `n < 0` or
`n ≥ page_count`, and sets `current_page := n` and re-renders when
`0 ≤ n < page_count`. -/
theorem C4_goto_page (s : ViewerState) (hdoc : s.doc.isSome) (n : Int) :
    ((n < 0 ∨ (s.total_pages : Int) ≤ n) →
      goto_page s (some (n + 1)) =
        (s, none, some UserMsg.pageRangeError)) ∧
    (0 ≤ n → n < (s.total_pages : Int) →
      goto_page s (some (n + 1)) =
        ({ s with current_page := n },
         some (show_page { s with current_page := n }), none)) := by
  have hn : n + 1 - 1 = n := by ring
  constructor
  · intro hout
    have hc : ¬ (s.doc.isSome ∧ 0 ≤ n + 1 - 1 ∧
        n + 1 - 1 < (s.total_pages : Int)) := by
      rw [hn]
      rintro ⟨-, h0, h1⟩
      rcases hout with h | h <;> omega
    simp only [goto_page]
    rw [if_neg hc]
  · intro h0 h1
    have hc : s.doc.isSome ∧ 0 ≤ n + 1 - 1 ∧
        n + 1 - 1 < (s.total_pages : Int) := by
      rw [hn]
      exact ⟨hdoc, h0, h1⟩
    simp only [goto_page]
    rw [if_pos hc, hn]

/-- C4 witness: the theorem applied to the three-page loaded state and
the out-of-range request `n = 5` (the scenario `goto_page(5)`). -/
theorem C4_goto_page_witness :
    sampleLoaded.doc.isSome ∧
    ((((5 : Int) < 0 ∨ (sampleLoaded.total_pages : Int) ≤ 5) →
       goto_page sampleLoaded (some (5 + 1)) =
         (sampleLoaded, none, some UserMsg.pageRangeError)) ∧
     ((0 : Int) ≤ 5 → (5 : Int) < (sampleLoaded.total_pages : Int) →
       goto_page sampleLoaded (some (5 + 1)) =
         ({ sampleLoaded with current_page := 5 },
          some (show_page { sampleLoaded with current_page := 5 }),
          none))) :=
  ⟨by decide, C4_goto_page sampleLoaded (by decide) 5⟩

/-- C7: with a document loaded and `current_page` in range, `next_page`
at the last page and `prev_page` at page 0 are complete no-ops (no
dialog, no render, no state change); otherwise they move `current_page`
by exactly one in the respective direction, touching no other field. -/
theorem C7_next_prev (s : ViewerState) (hdoc : s.doc.isSome)
    (hlo : 0 ≤ s.current_page)
    (hhi : s.current_page < (s.total_pages : Int)) :
    (s.current_page = (s.total_pages : Int) - 1 →
      next_page s = (s, none)) ∧
    (s.current_page = 0 → prev_page s = (s, none)) ∧
    (s.current_page < (s.total_pages : Int) - 1 →
      next_page s = ({ s with current_page := s.current_page + 1 },
        some (show_page { s with current_page := s.current_page + 1 }))) ∧
    (0 < s.current_page →
      prev_page s = ({ s with current_page := s.current_page - 1 },
        some (show_page { s with current_page := s.current_page - 1 }))) := by
  refine ⟨?_, ?_, ?_, ?_⟩
  · intro hlast
    have hc : ¬ (s.doc.isSome ∧
        s.current_page < (s.total_pages : Int) - 1) := by
      rintro ⟨-, h⟩
      omega
    unfold next_page
    rw [if_neg hc]
  · intro h0
    have hc : ¬ 0 < s.current_page := by omega
    unfold prev_page
    rw [if_neg hc]
  · intro hlt
    unfold next_page
    rw [if_pos ⟨hdoc, hlt⟩]
  · intro hpos
    unfold prev_page
    rw [if_pos hpos]

/-- C7 witness: the theorem applied to the three-page loaded state at
page 0 (`prev_page` is a no-op there, `next_page` moves to page 1). -/
theorem C7_next_prev_witness :
    (sampleLoaded.doc.isSome ∧ 0 ≤ sampleLoaded.current_page ∧
      sampleLoaded.current_page < (sampleLoaded.total_pages : Int)) ∧
    ((sampleLoaded.current_page = (sampleLoaded.total_pages : Int) - 1 →
       next_page sampleLoaded = (sampleLoaded, none)) ∧
     (sampleLoaded.current_page = 0 →
       prev_page sampleLoaded = (sampleLoaded, none)) ∧
     (sampleLoaded.current_page < (sampleLoaded.total_pages : Int) - 1 →
       next_page sampleLoaded =
         ({ sampleLoaded with
              current_page := sampleLoaded.current_page + 1 },
          some (show_page { sampleLoaded with
              current_page := sampleLoaded.current_page + 1 }))) ∧
     (0 < sampleLoaded.current_page →
       prev_page sampleLoaded =
         ({ sampleLoaded with
              current_page := sampleLoaded.current_page - 1 },
          some (show_page { sampleLoaded with
              current_page := sampleLoaded.current_page - 1 })))) :=
  ⟨⟨by decide, by decide, by decide⟩,
   C7_next_prev sampleLoaded (by decide) (by decide) (by decide)⟩

end V01
